import Mathlib

/-!
Shallow embedding of the Syrup unified trade orchestration layer
(`src/backend/src`): the domain model (`models/trade.py`), the platform
adapters (`platforms/base.py`, `platforms/solana_adapter.py`,
`platforms/polymarket_adapter.py`, `platforms/kalshi_adapter.py`),
the trade router (`routers/trade_router.py`) and the agent decision parser
(`agents/anthropic_agent.py`).

Modelling conventions:
- Python floats are embedded as `ℚ` (the code only compares amounts and
  slippage with 0 and 1 and divides by powers of ten, so no claim depends
  on IEEE rounding).
- Network transports (Solana RPC, Polymarket HTTP, Kalshi HTTP, the
  Anthropic model call and the Python stdlib `json.loads`) are external
  collaborators, embedded as explicit oracle parameters; a value of
  `Except String α` models a call that either returns or raises, and the
  adapters' `try/except` blocks become `match`es on that value.
- `TradeResult.timestamp` (wall-clock `datetime.utcnow()`) is omitted:
  it is real time, and no claim mentions it.
- Where an effectful function must be observed for "makes no network
  call", it additionally returns the number of transport invocations.
-/

namespace Syrup

/-! ## Domain model — `models/trade.py` -/

/-- `Platform(str, Enum)`: closed enumeration of venues. -/
inductive Platform where
  | solana
  | polymarket
  | kalshi
deriving DecidableEq, Repr

/-- The `.value` of a `Platform` member. -/
def Platform.value : Platform → String
  | .solana => "solana"
  | .polymarket => "polymarket"
  | .kalshi => "kalshi"

/-- `Platform(s)`: enum lookup by value; raises `ValueError` on a
non-member. -/
def Platform.ofValue (s : String) : Except String Platform :=
  if s = "solana" then .ok .solana
  else if s = "polymarket" then .ok .polymarket
  else if s = "kalshi" then .ok .kalshi
  else .error ("ValueError: " ++ s ++ " is not a valid Platform")

/-- `TradeType(str, Enum)`. -/
inductive TradeType where
  | buy
  | sell
  | swap
deriving DecidableEq, Repr

/-- The `.value` of a `TradeType` member. -/
def TradeType.value : TradeType → String
  | .buy => "buy"
  | .sell => "sell"
  | .swap => "swap"

/-- `TradeType(s)`: enum lookup by value; raises `ValueError` on a
non-member. -/
def TradeType.ofValue (s : String) : Except String TradeType :=
  if s = "buy" then .ok .buy
  else if s = "sell" then .ok .sell
  else if s = "swap" then .ok .swap
  else .error ("ValueError: " ++ s ++ " is not a valid TradeType")

/-- `TradeStatus(str, Enum)`. -/
inductive TradeStatus where
  | pending
  | executing
  | completed
  | failed
  | cancelled
deriving DecidableEq, Repr

/-- A JSON value, as produced by `json.loads` on the model output. -/
inductive Json where
  | null
  | bool (b : Bool)
  | num (q : ℚ)
  | str (s : String)
  | arr (elems : List Json)
  | obj (fields : List (String × Json))

/-- `TradeRequest` (pydantic model). `metadata` is a free-form dict; values
are arbitrary JSON. -/
structure TradeRequest where
  platform : Platform
  trade_type : TradeType
  symbol : String
  amount : ℚ
  price : Option ℚ := none
  slippage : ℚ := 1 / 100
  metadata : List (String × Json) := []

/-- The pydantic constructor of `TradeRequest`: the only field constraint is
`slippage: float = Field(default=0.01, ge=0, le=1)`; out-of-range slippage
raises a `ValidationError` at construction. -/
def mkTradeRequest (platform : Platform) (trade_type : TradeType)
    (symbol : String) (amount : ℚ) (price : Option ℚ) (slippage : ℚ)
    (metadata : List (String × Json)) : Except String TradeRequest :=
  if slippage < 0 then
    .error "ValidationError: slippage greater than or equal to 0 expected"
  else if 1 < slippage then
    .error "ValidationError: slippage less than or equal to 1 expected"
  else
    .ok { platform, trade_type, symbol, amount, price, slippage, metadata }

/-- `TradeResult` (pydantic model); `timestamp` omitted (wall clock),
`metadata` omitted (never set by the adapters). -/
structure TradeResult where
  trade_id : String
  platform : Platform
  status : TradeStatus
  transaction_hash : Option String := none
  executed_amount : Option ℚ := none
  executed_price : Option ℚ := none
  fee : Option ℚ := none
  error : Option String := none
deriving DecidableEq, Repr

/-- `PlatformCredentials` (pydantic model); `metadata` omitted (unused by
the adapters). -/
structure PlatformCredentials where
  platform : Platform
  rpc_url : Option String := none
  api_key : Option String := none
  secret : Option String := none
  private_key : Option String := none
  passphrase : Option String := none
  wallet_address : Option String := none

/-- A balance mapping, asset symbol to quantity. -/
abbrev Balances := List (String × ℚ)

/-- Lookup in a Python dict, embedded as an association list with unique
keys (a `dict` cannot hold duplicates; `json.loads` keeps the last
occurrence of a repeated key, so decoded objects are embedded already
deduplicated). -/
def dictLookup {κ α : Type} [DecidableEq κ] (key : κ) :
    List (κ × α) → Option α
  | [] => none
  | (k, v) :: rest => if k = key then some v else dictLookup key rest

/-! ## Shared validation — `platforms/base.py`, `BasePlatform.validate_trade`

`validate_trade` first awaits `self.get_balance()` inside a `try`; an
exception there is converted to `(False, "Validation error: ...")`. The
subclasses' `get_balance` implementations all swallow their own transport
errors, so the argument below is `.ok _` at every call site in this file;
the `.error` branch embeds the `except` clause faithfully anyway. -/

def validate_trade (getBalance : Except String Balances)
    (trade : TradeRequest) : Bool × Option String :=
  match getBalance with
  | .error e => (false, some ("Validation error: " ++ e))
  | .ok _ =>
    if trade.amount ≤ 0 then
      (false, some "Amount must be positive")
    else if trade.slippage < 0 ∨ 1 < trade.slippage then
      (false, some "Slippage must be between 0 and 1")
    else
      (true, none)

/-! ## Solana adapter — `platforms/solana_adapter.py` -/

/-- `SolanaAdapter._initialize`: the wallet is decoded from
`credentials.private_key` only when that key is present and truthy (a
non-empty string); a decode failure raises `ValueError`. The base58 decode
and `Keypair.from_bytes` of the `solders` library are an oracle. -/
def solana_init_wallet (creds : PlatformCredentials)
    (decodeKeypair : String → Except String String) :
    Except String (Option String) :=
  match creds.private_key with
  | none => .ok none
  | some k =>
    if k = "" then .ok none
    else
      match decodeKeypair k with
      | .ok kp => .ok (some kp)
      | .error e => .error ("Invalid Solana private key: " ++ e)

/-- The Solana RPC transport: the response value of `client.get_balance`
(in lamports), or a raised transport exception. -/
structure SolanaNet where
  balanceLamports : Except String ℚ

/-- `SolanaAdapter.get_balance`: returns `{}` without any RPC call when the
wallet is absent; otherwise makes one RPC call and converts lamports to
SOL, swallowing exceptions to `{}`. The second component counts RPC
invocations. -/
def solana_get_balance (wallet : Option String) (net : SolanaNet) :
    Balances × Nat :=
  match wallet with
  | none => ([], 0)
  | some _ =>
    match net.balanceLamports with
    | .ok v => ([("SOL", v / 1000000000)], 1)
    | .error _ => ([], 1)

/-- `SolanaAdapter._get_jupiter_quote` is a local mock in the source: it
returns a fixed quote dict and performs no network call. -/
structure JupiterQuote where
  price : ℚ
  fee : ℚ
  route : String

def jupiter_quote_mock : Option JupiterQuote :=
  some { price := 1, fee := 1 / 10000, route := "jupiter" }

/-- `SolanaAdapter._execute_jupiter_swap` is a local mock returning a fixed
signature. -/
def jupiter_swap_mock : String := "mock_transaction_signature"

/-- The failure message for a non-swap trade type, from the f-string
`f"Trade type {trade.trade_type} not supported"` (the str-Enum renders as
`TradeType.NAME`). -/
def tradeTypeNotSupportedMsg (t : TradeType) : String :=
  "Trade type TradeType." ++ t.value.toUpper ++ " not supported"

/-- `SolanaAdapter.execute_trade`. Order of effects in the source: wallet
presence check first (early return, no RPC); then `validate_trade` (which
calls `get_balance`, one RPC when the wallet is present); then the Jupiter
mock path for `swap`, or a failed result for any other trade type. The
second component counts RPC invocations. -/
def solana_execute_trade (wallet : Option String) (net : SolanaNet)
    (trade : TradeRequest) : TradeResult × Nat :=
  match wallet with
  | none =>
    ({ trade_id := "", platform := .solana, status := .failed,
       error := some "Wallet not initialized" }, 0)
  | some w =>
    let bal := solana_get_balance (some w) net
    let v := validate_trade (.ok bal.1) trade
    if v.1 then
      if trade.trade_type = .swap then
        match jupiter_quote_mock with
        | none =>
          ({ trade_id := "", platform := .solana, status := .failed,
             error := some "Failed to get quote" }, bal.2)
        | some quote =>
          ({ trade_id := jupiter_swap_mock, platform := .solana,
             status := .completed,
             transaction_hash := some jupiter_swap_mock,
             executed_amount := some trade.amount,
             executed_price := some quote.price,
             fee := some quote.fee }, bal.2)
      else
        ({ trade_id := "", platform := .solana, status := .failed,
           error := some (tradeTypeNotSupportedMsg trade.trade_type) }, bal.2)
    else
      ({ trade_id := "", platform := .solana, status := .failed,
         error := v.2 }, bal.2)

/-- `SolanaAdapter.cancel_order`: always `False`. -/
def solana_cancel_order (_order_id : String) : Bool := false

/-! ## Polymarket adapter — `platforms/polymarket_adapter.py` -/

/-- Python truthiness of `trade.price` (an `Optional[float]`): `None` and
`0.0` are falsy. -/
def pyTruthyNum : Option ℚ → Bool
  | none => false
  | some q => q ≠ 0

/-- The order dict built by `PolymarketAdapter.execute_trade`. -/
structure PolyOrderData where
  market : String
  side : String
  size : ℚ
  price : Option ℚ
  type : String
deriving DecidableEq, Repr

/-- The `order_data` construction: `side` is `"BUY"` only when
`trade.trade_type.value == "buy"`, otherwise `"SELL"`; `type` is `"LIMIT"`
when `trade.price` is truthy, else `"MARKET"`. -/
def poly_order_data (trade : TradeRequest) : PolyOrderData :=
  { market := trade.symbol,
    side := if trade.trade_type.value = "buy" then "BUY" else "SELL",
    size := trade.amount,
    price := trade.price,
    type := if pyTruthyNum trade.price then "LIMIT" else "MARKET" }

/-- The JSON response of `POST /orders`, projected onto the keys the
adapter reads (`.get` with defaults becomes `Option.getD`). -/
structure PolyOrderResponse where
  success : Bool := false
  orderId : Option String := none
  transactionHash : Option String := none
  executedPrice : Option ℚ := none
  fee : Option ℚ := none
  error : Option String := none

/-- The Polymarket HTTP transport: the response of `GET /balances`
(success flag and balances dict) and of `POST /orders` as a function of the
order payload; `.error` models a raised transport exception. -/
structure PolyTransport where
  balancesResp : Except String (Bool × Balances)
  ordersResp : PolyOrderData → Except String PolyOrderResponse

/-- `PolymarketAdapter.get_balance`: returns the balances dict when the
response is successful, `{}` on an unsuccessful response or any
exception. -/
def poly_get_balance (tr : PolyTransport) : Balances :=
  match tr.balancesResp with
  | .ok (true, b) => b
  | .ok (false, _) => []
  | .error _ => []

/-- `PolymarketAdapter.execute_trade`: validate, then post the order and map
the response; any exception is caught and becomes a failed result with the
exception's message. -/
def poly_execute_trade (tr : PolyTransport) (trade : TradeRequest) :
    TradeResult :=
  let v := validate_trade (.ok (poly_get_balance tr)) trade
  if v.1 then
    match tr.ordersResp (poly_order_data trade) with
    | .error e =>
      { trade_id := "", platform := .polymarket, status := .failed,
        error := some e }
    | .ok resp =>
      if resp.success then
        { trade_id := resp.orderId.getD "", platform := .polymarket,
          status := .completed,
          transaction_hash := resp.transactionHash,
          executed_amount := some trade.amount,
          executed_price := resp.executedPrice,
          fee := some (resp.fee.getD 0) }
      else
        { trade_id := "", platform := .polymarket, status := .failed,
          error := some (resp.error.getD "Unknown error") }
  else
    { trade_id := "", platform := .polymarket, status := .failed,
      error := v.2 }

/-! ## Kalshi adapter — `platforms/kalshi_adapter.py` -/

/-- Python `int()` on a float: truncation toward zero. -/
def pyInt (q : ℚ) : Int := if q < 0 then -⌊-q⌋ else ⌊q⌋

/-- The order dict built by `KalshiAdapter.execute_trade`: the trade type
travels verbatim, upper-cased, as `action`; `count` is `int(trade.amount)`;
a truthy price switches the order to `"limit"` with `yes_price` in cents. -/
structure KalshiOrderData where
  ticker : String
  action : String
  count : Int
  type : String
  side : String
  yes_price : Option Int
deriving DecidableEq, Repr

def kalshi_order_data (trade : TradeRequest) : KalshiOrderData :=
  let base : KalshiOrderData :=
    { ticker := trade.symbol,
      action := trade.trade_type.value.toUpper,
      count := pyInt trade.amount,
      type := "market",
      side := "yes",
      yes_price := none }
  if pyTruthyNum trade.price then
    { base with
        type := "limit",
        yes_price := some (pyInt ((trade.price.getD 0) * 100)) }
  else
    base

/-- The `order` object inside the response of `POST /portfolio/orders`,
projected onto the keys the adapter reads. -/
structure KalshiOrder where
  order_id : Option String := none
  quantity : Option ℚ := none
  yes_price : Option ℚ := none
  fee : Option ℚ := none

/-- The JSON response of `POST /portfolio/orders`: `order` present (and
truthy) or an optional `error` text. -/
structure KalshiOrderResponse where
  order : Option KalshiOrder := none
  error : Option String := none

/-- The Kalshi HTTP transport: the `balance` field (in cents) of
`GET /portfolio/balance`, and the response of `POST /portfolio/orders` as a
function of the order payload; `.error` models a raised exception. -/
structure KalshiTransport where
  balanceResp : Except String (Option ℚ)
  ordersResp : KalshiOrderData → Except String KalshiOrderResponse

/-- `KalshiAdapter.get_balance`: `if response.get("balance"):` — a missing
or zero (falsy) balance yields `{}`; otherwise cents are converted to
dollars; exceptions are swallowed to `{}`. -/
def kalshi_get_balance (tr : KalshiTransport) : Balances :=
  match tr.balanceResp with
  | .error _ => []
  | .ok none => []
  | .ok (some c) => if c ≠ 0 then [("USD", c / 100)] else []

/-- `KalshiAdapter.execute_trade`: validate, post the order, map the
response (cents to dollars); any exception becomes a failed result. -/
def kalshi_execute_trade (tr : KalshiTransport) (trade : TradeRequest) :
    TradeResult :=
  let v := validate_trade (.ok (kalshi_get_balance tr)) trade
  if v.1 then
    match tr.ordersResp (kalshi_order_data trade) with
    | .error e =>
      { trade_id := "", platform := .kalshi, status := .failed,
        error := some e }
    | .ok resp =>
      match resp.order with
      | some order =>
        { trade_id := order.order_id.getD "", platform := .kalshi,
          status := .completed,
          executed_amount := some (order.quantity.getD 0),
          executed_price := some (order.yes_price.getD 0 / 100),
          fee := some (order.fee.getD 0 / 100) }
      | none =>
        { trade_id := "", platform := .kalshi, status := .failed,
          error := some (resp.error.getD "Unknown error") }
  else
    { trade_id := "", platform := .kalshi, status := .failed,
      error := v.2 }

/-! ## Trade router — `routers/trade_router.py`

An adapter registered in the router is observed through its `execute_trade`
and `get_balance` behaviours. The three concrete adapters' `execute_trade`
never raises (each wraps its body in `try/except`), so it is embedded as a
total function; `adapter.get_balance()` is awaited by the router without a
local `try` in `get_balance` but inside one in `get_all_balances`, so its
potential to raise is kept (`Except`). -/

structure Adapter where
  execute_trade : TradeRequest → TradeResult
  get_balance : Except String Balances

/-- `TradeRouter`: a registry of adapters keyed by platform (a Python dict:
insertion-ordered, unique keys; embedded as an association list). -/
structure TradeRouter where
  platforms : List (Platform × Adapter)

instance : BEq Platform := ⟨fun a b => decide (a = b)⟩

/-- `TradeRouter.execute_trade`: dict lookup of the request's platform; a
missing adapter synthesizes a failed result mentioning "not registered"
instead of raising; otherwise the adapter's result is returned unchanged. -/
def TradeRouter.execute_trade (r : TradeRouter) (trade : TradeRequest) :
    TradeResult :=
  match dictLookup trade.platform r.platforms with
  | none =>
    { trade_id := "", platform := trade.platform, status := .failed,
      error := some ("Platform " ++ trade.platform.value ++
        " not registered") }
  | some adapter => adapter.execute_trade trade

/-- `TradeRouter.get_all_balances`: iterate the registry in order; each
adapter's `get_balance` is awaited inside `try/except Exception`, so a
faulting adapter contributes `{}` and the iteration continues. -/
def TradeRouter.get_all_balances (r : TradeRouter) :
    List (Platform × Balances) :=
  r.platforms.map fun pa =>
    (pa.1, match pa.2.get_balance with
           | .ok b => b
           | .error _ => [])

/-! ## Agent decision parser — `agents/anthropic_agent.py`,
`AnthropicAgent.generate_trade_decision`

The post-response logic: locate the first `\x7b` through the last `\x7d`
in the model output's text, decode the slice with `json.loads` (stdlib —
embedded as an oracle parameter `loads`; `.error` models a raised
`json.JSONDecodeError`, the only exception `loads` raises on a string),
then build a `TradeRequest` when `decision.get("action") == "trade"`.
A decode failure hits the inner `except json.JSONDecodeError: pass`;
every other exception (`AttributeError` on a non-dict, `KeyError` on a
missing field, `ValueError` from an enum lookup, pydantic
`ValidationError`) escapes the inner `try` and is caught by the outer
`except Exception`, which prints and returns `None`. -/

def lbrace : Char := Char.ofNat 123

def rbrace : Char := Char.ofNat 125

/-- Python `str.find`: index of the first occurrence, `-1` if absent. -/
def pyFind (cs : List Char) (c : Char) : Int :=
  match cs.findIdx? (fun x => x = c) with
  | some i => Int.ofNat i
  | none => -1

/-- Python `str.rfind`: index of the last occurrence, `-1` if absent. -/
def pyRfind (cs : List Char) (c : Char) : Int :=
  match cs.reverse.findIdx? (fun x => x = c) with
  | some i => Int.ofNat cs.length - 1 - Int.ofNat i
  | none => -1

/-- `start = content.find(...); end = content.rfind(...) + 1;`
`if start >= 0 and end > start: json_str = content[start:end]`. -/
def extract_json_fragment (content : String) : Option String :=
  let cs := content.toList
  let start := pyFind cs lbrace
  let stop := pyRfind cs rbrace + 1
  if 0 ≤ start ∧ start < stop then
    some (String.mk (List.take (stop - start).toNat (List.drop start.toNat cs)))
  else
    none

/-- `decision.get(key)`: `None` on a missing key; raises `AttributeError`
when the decoded value is not a dict. -/
def Json.get? (j : Json) (key : String) : Except String (Option Json) :=
  match j with
  | .obj fields => .ok (dictLookup key fields)
  | _ => .error "AttributeError: object has no attribute get"

/-- `decision[key]`: raises `KeyError` on a missing key, `TypeError` when
the decoded value is not a dict. -/
def Json.getItem (j : Json) (key : String) : Except String Json :=
  match j with
  | .obj fields =>
    match dictLookup key fields with
    | some v => .ok v
    | none => .error ("KeyError: " ++ key)
  | _ => .error "TypeError: value is not subscriptable"

/-- `Platform(x)`: the enum lookup succeeds only on a member's string
value; any other value raises `ValueError`. -/
def Platform.ofJson : Json → Except String Platform
  | .str s => Platform.ofValue s
  | _ => .error "ValueError: not a valid Platform"

/-- `TradeType(x)`: as for `Platform`. -/
def TradeType.ofJson : Json → Except String TradeType
  | .str s => TradeType.ofValue s
  | _ => .error "ValueError: not a valid TradeType"

/-- pydantic validation of the `symbol: str` field. -/
def Json.asStr : Json → Except String String
  | .str s => .ok s
  | _ => .error "ValidationError: str expected"

/-- pydantic validation of the `amount: float` field. (Numeric-string
coercion of pydantic's lax mode is not modelled; no claim exercises it.) -/
def Json.asNum : Json → Except String ℚ
  | .num q => .ok q
  | _ => .error "ValidationError: float expected"

/-- pydantic validation of `price: Optional[float]` fed from
`decision.get("price")`: an absent key or JSON `null` becomes `None`. -/
def pyOptNum : Option Json → Except String (Option ℚ)
  | none => .ok none
  | some .null => .ok none
  | some (.num q) => .ok (some q)
  | some _ => .error "ValidationError: float or None expected"

/-- `decision.get("slippage", 0.01)` fed to the `slippage: float` field. -/
def pySlippage : Option Json → Except String ℚ
  | none => .ok (1 / 100)
  | some (.num q) => .ok q
  | some _ => .error "ValidationError: float expected"

/-- `decision.get("action") == "trade"`: true exactly when the value is the
string `"trade"`. -/
def actionIsTrade : Option Json → Bool
  | some (.str s) => s = "trade"
  | _ => false

/-- `decision.get("reasoning", "")`, stored unvalidated in the free-form
`metadata` dict. -/
def reasoningOf (j : Json) : Json :=
  match j with
  | .obj fields => (dictLookup "reasoning" fields).getD (.str "")
  | _ => .str ""

/-- The `if decision.get("action") == "trade": return TradeRequest(...)`
block, with every raising sub-expression in source order; the `.error`
result is what the outer `except Exception` catches. `.ok none` is the
fall-through `return None`. -/
def build_trade_request (decision : Json) :
    Except String (Option TradeRequest) :=
  match decision.get? "action" with
  | .error e => .error e
  | .ok action =>
    if actionIsTrade action then
      match decision.getItem "platform" with
      | .error e => .error e
      | .ok pj =>
        match Platform.ofJson pj with
        | .error e => .error e
        | .ok platform =>
          match decision.getItem "trade_type" with
          | .error e => .error e
          | .ok tj =>
            match TradeType.ofJson tj with
            | .error e => .error e
            | .ok trade_type =>
              match decision.getItem "symbol" with
              | .error e => .error e
              | .ok sj =>
                match decision.getItem "amount" with
                | .error e => .error e
                | .ok aj =>
                  match decision.get? "price" with
                  | .error e => .error e
                  | .ok priceJ =>
                    match decision.get? "slippage" with
                    | .error e => .error e
                    | .ok slipJ =>
                      match sj.asStr with
                      | .error e => .error e
                      | .ok symbol =>
                        match aj.asNum with
                        | .error e => .error e
                        | .ok amount =>
                          match pyOptNum priceJ with
                          | .error e => .error e
                          | .ok price =>
                            match pySlippage slipJ with
                            | .error e => .error e
                            | .ok slippage =>
                              match mkTradeRequest platform trade_type
                                  symbol amount price slippage
                                  [("reasoning", reasoningOf decision)] with
                              | .error e => .error e
                              | .ok req => .ok (some req)
    else
      .ok none

/-- `AnthropicAgent.generate_trade_decision`, from the response text down:
extract the brace-delimited fragment, decode it, build the request; every
failure path collapses to `none` and nothing escapes the outer
`try/except`. -/
def generate_trade_decision (loads : String → Except String Json)
    (content : String) : Option TradeRequest :=
  match extract_json_fragment content with
  | none => none
  | some json_str =>
    match loads json_str with
    | .error _ => none
    | .ok decision =>
      match build_trade_request decision with
      | .ok r => r
      | .error _ => none

/-! ## Helper lemmas -/

/-- The failed result produced by the Solana wallet-presence check. -/
def walletFailResult : TradeResult :=
  { trade_id := "", platform := .solana, status := .failed,
    error := some "Wallet not initialized" }

theorem solana_execute_trade_no_wallet (net : SolanaNet)
    (trade : TradeRequest) :
    solana_execute_trade none net trade = (walletFailResult, 0) := rfl

theorem validate_trade_amount_nonpos (bal : Balances) (trade : TradeRequest)
    (h : trade.amount ≤ 0) :
    validate_trade (.ok bal) trade = (false, some "Amount must be positive") := by
  simp [validate_trade, h]

theorem validate_trade_passes (bal : Balances) (trade : TradeRequest)
    (h1 : 0 < trade.amount) (h2 : 0 ≤ trade.slippage)
    (h3 : trade.slippage ≤ 1) :
    validate_trade (.ok bal) trade = (true, none) := by
  have ha : ¬ trade.amount ≤ 0 := not_le.mpr h1
  have hs : ¬ (trade.slippage < 0 ∨ 1 < trade.slippage) := by
    push_neg
    exact ⟨h2, h3⟩
  simp [validate_trade, ha, hs]

/-! ## Claims -/

/-- Claim C1: for every TradeRequest whose platform has no adapter
registered in the TradeRouter at dispatch time, `TradeRouter.execute_trade`
returns a TradeResult with status failed whose error mentions that the
platform is not registered (the exact message is
`"Platform <value> not registered"`); the embedded function is total, so
no exception is raised. -/
theorem C1_router_unregistered_failed (r : TradeRouter) (trade : TradeRequest)
    (h : dictLookup trade.platform r.platforms = none) :
    (r.execute_trade trade).status = .failed ∧
    (r.execute_trade trade).error =
      some ("Platform " ++ trade.platform.value ++ " not registered") := by
  simp [TradeRouter.execute_trade, h]

theorem C1_witness :
    (dictLookup Platform.solana ({ platforms := [] } : TradeRouter).platforms = none) ∧
    (TradeRouter.execute_trade { platforms := [] }
      { platform := .solana, trade_type := .swap, symbol := "SOL/USDC",
        amount := 1 }).status = .failed ∧
    (TradeRouter.execute_trade { platforms := [] }
      { platform := .solana, trade_type := .swap, symbol := "SOL/USDC",
        amount := 1 }).error = some "Platform solana not registered" := by
  have h := C1_router_unregistered_failed { platforms := [] }
    { platform := .solana, trade_type := .swap, symbol := "SOL/USDC",
      amount := 1 } rfl
  exact ⟨rfl, h.1, h.2⟩

/-- Claim C2: for every TradeRequest with `amount ≤ 0`, `execute_trade` on
every adapter variant returns a failed TradeResult carrying a
validation-related error rather than raising. Polymarket and Kalshi carry
the shared validation message `"Amount must be positive"`; Solana carries
it when a wallet is present, and the venue-feasibility message
`"Wallet not initialized"` otherwise (the spec counts wallet presence as
venue-specific validation). All embedded functions are total. -/
theorem C2_amount_nonpositive_failed (trade : TradeRequest)
    (h : trade.amount ≤ 0) :
    (∀ wallet net,
      (solana_execute_trade wallet net trade).1.status = .failed ∧
      ((solana_execute_trade wallet net trade).1.error =
          some "Amount must be positive" ∨
        (solana_execute_trade wallet net trade).1.error =
          some "Wallet not initialized")) ∧
    (∀ tr, (poly_execute_trade tr trade).status = .failed ∧
      (poly_execute_trade tr trade).error = some "Amount must be positive") ∧
    (∀ tr, (kalshi_execute_trade tr trade).status = .failed ∧
      (kalshi_execute_trade tr trade).error = some "Amount must be positive") := by
  refine ⟨?_, ?_, ?_⟩
  · intro wallet net
    match wallet with
    | none => exact ⟨rfl, Or.inr rfl⟩
    | some w =>
      simp [solana_execute_trade, validate_trade_amount_nonpos _ _ h]
  · intro tr
    simp [poly_execute_trade, validate_trade_amount_nonpos _ _ h]
  · intro tr
    simp [kalshi_execute_trade, validate_trade_amount_nonpos _ _ h]

theorem C2_witness :
    (({ platform := .polymarket, trade_type := .buy, symbol := "m",
        amount := 0 } : TradeRequest).amount ≤ 0) ∧
    (poly_execute_trade
      { balancesResp := .ok (true, []), ordersResp := fun _ => .ok {} }
      { platform := .polymarket, trade_type := .buy, symbol := "m",
        amount := 0 }).status = .failed ∧
    (solana_execute_trade (some "w") { balanceLamports := .ok 0 }
      { platform := .polymarket, trade_type := .buy, symbol := "m",
        amount := 0 }).1.status = .failed := by
  have h := C2_amount_nonpositive_failed
    { platform := .polymarket, trade_type := .buy, symbol := "m",
      amount := 0 } (by norm_num)
  exact ⟨by norm_num,
    (h.2.1 { balancesResp := .ok (true, []), ordersResp := fun _ => .ok {} }).1,
    (h.1 (some "w") { balanceLamports := .ok 0 }).1⟩

/-- Claim C3: a SolanaAdapter constructed from credentials with no private
key has no wallet; every `execute_trade` call then returns a failed
TradeResult with error `"Wallet not initialized"` and performs zero
transport invocations, and `cancel_order` returns false for every order
id. -/
theorem C3_wallet_less_solana (creds : PlatformCredentials)
    (decodeKeypair : String → Except String String)
    (h : creds.private_key = none) (wallet : Option String)
    (hw : solana_init_wallet creds decodeKeypair = .ok wallet) :
    wallet = none ∧
    (∀ net trade,
      (solana_execute_trade wallet net trade).1.status = .failed ∧
      (solana_execute_trade wallet net trade).1.error =
        some "Wallet not initialized" ∧
      (solana_execute_trade wallet net trade).2 = 0) ∧
    (∀ order_id, solana_cancel_order order_id = false) := by
  have hwn : wallet = none := by
    simp [solana_init_wallet, h] at hw
    exact hw.symm
  subst hwn
  refine ⟨rfl, ?_, fun _ => rfl⟩
  intro net trade
  rw [solana_execute_trade_no_wallet]
  exact ⟨rfl, rfl, rfl⟩

theorem C3_witness :
    (({ platform := .solana } : PlatformCredentials).private_key = none) ∧
    solana_init_wallet { platform := .solana } (fun _ => .error "no decode") =
      .ok none ∧
    (solana_execute_trade none { balanceLamports := .ok 3 }
      { platform := .solana, trade_type := .swap, symbol := "SOL/USDC",
        amount := 1 }).1.error = some "Wallet not initialized" ∧
    (solana_execute_trade none { balanceLamports := .ok 3 }
      { platform := .solana, trade_type := .swap, symbol := "SOL/USDC",
        amount := 1 }).2 = 0 ∧
    solana_cancel_order "sig-1" = false := by
  have h := C3_wallet_less_solana { platform := .solana }
    (fun _ => .error "no decode") rfl none rfl
  refine ⟨rfl, rfl, ?_, ?_, h.2.2 "sig-1"⟩
  · exact (h.2.1 { balanceLamports := .ok 3 }
      { platform := .solana, trade_type := .swap, symbol := "SOL/USDC",
        amount := 1 }).2.1
  · exact (h.2.1 { balanceLamports := .ok 3 }
      { platform := .solana, trade_type := .swap, symbol := "SOL/USDC",
        amount := 1 }).2.2

/-- The validation-related messages: the two shared `validate_trade`
messages plus the Solana venue-feasibility message (the spec counts wallet
presence as venue-specific validation performed by the subclass). -/
def validationMsgs : List String :=
  ["Amount must be positive", "Slippage must be between 0 and 1",
   "Wallet not initialized"]

/-- Claim C6: for every TradeRequest with `slippage < 0` or `slippage > 1`,
`execute_trade` on every adapter variant returns a failed TradeResult
carrying a validation-related error (the slippage message, or the amount
message when the amount is also invalid — the amount check comes first —
or, for a wallet-less Solana adapter, the wallet message). -/
theorem C6_slippage_out_of_range_failed (trade : TradeRequest)
    (h : trade.slippage < 0 ∨ 1 < trade.slippage) :
    (∀ wallet net,
      (solana_execute_trade wallet net trade).1.status = .failed ∧
      ∃ m ∈ validationMsgs,
        (solana_execute_trade wallet net trade).1.error = some m) ∧
    (∀ tr, (poly_execute_trade tr trade).status = .failed ∧
      ∃ m ∈ validationMsgs, (poly_execute_trade tr trade).error = some m) ∧
    (∀ tr, (kalshi_execute_trade tr trade).status = .failed ∧
      ∃ m ∈ validationMsgs, (kalshi_execute_trade tr trade).error = some m) := by
  have hval : ∀ bal : Balances,
      validate_trade (.ok bal) trade =
        if trade.amount ≤ 0 then (false, some "Amount must be positive")
        else (false, some "Slippage must be between 0 and 1") := by
    intro bal
    by_cases ha : trade.amount ≤ 0
    · simp [validate_trade, ha]
    · simp [validate_trade, ha, h]
  have hmem1 : "Amount must be positive" ∈ validationMsgs := by
    simp [validationMsgs]
  have hmem2 : "Slippage must be between 0 and 1" ∈ validationMsgs := by
    simp [validationMsgs]
  have hmem3 : "Wallet not initialized" ∈ validationMsgs := by
    simp [validationMsgs]
  refine ⟨?_, ?_, ?_⟩
  · intro wallet net
    match wallet with
    | none => exact ⟨rfl, "Wallet not initialized", hmem3, rfl⟩
    | some w =>
      by_cases ha : trade.amount ≤ 0
      · refine ⟨?_, "Amount must be positive", hmem1, ?_⟩ <;>
          simp [solana_execute_trade, hval, ha]
      · refine ⟨?_, "Slippage must be between 0 and 1", hmem2, ?_⟩ <;>
          simp [solana_execute_trade, hval, ha]
  · intro tr
    by_cases ha : trade.amount ≤ 0
    · refine ⟨?_, "Amount must be positive", hmem1, ?_⟩ <;>
        simp [poly_execute_trade, hval, ha]
    · refine ⟨?_, "Slippage must be between 0 and 1", hmem2, ?_⟩ <;>
        simp [poly_execute_trade, hval, ha]
  · intro tr
    by_cases ha : trade.amount ≤ 0
    · refine ⟨?_, "Amount must be positive", hmem1, ?_⟩ <;>
        simp [kalshi_execute_trade, hval, ha]
    · refine ⟨?_, "Slippage must be between 0 and 1", hmem2, ?_⟩ <;>
        simp [kalshi_execute_trade, hval, ha]

/-- A request with out-of-range slippage. -/
def badSlippageReq : TradeRequest :=
  { platform := .kalshi, trade_type := .buy, symbol := "m", amount := 1,
    slippage := 2 }

/-- A Kalshi transport double. -/
def kalshiStubTransport : KalshiTransport :=
  { balanceResp := .ok none, ordersResp := fun _ => .ok {} }

theorem C6_witness :
    (badSlippageReq.slippage < 0 ∨ 1 < badSlippageReq.slippage) ∧
    (kalshi_execute_trade kalshiStubTransport badSlippageReq).status =
      .failed := by
  have h := C6_slippage_out_of_range_failed badSlippageReq
    (Or.inr (by norm_num [badSlippageReq]))
  exact ⟨Or.inr (by norm_num [badSlippageReq]), (h.2.2 kalshiStubTransport).1⟩

/-- Claim C7: `get_all_balances` on a router with N registered platforms
returns exactly N entries, one per registered platform, even when some
adapters' `get_balance` raises: a faulting platform is mapped to the empty
balance mapping and a non-faulting platform keeps its balances. -/
theorem C7_get_all_balances_total (r : TradeRouter) :
    r.get_all_balances.length = r.platforms.length ∧
    ∀ p a, (p, a) ∈ r.platforms →
      (∀ e, a.get_balance = .error e →
        (p, ([] : Balances)) ∈ r.get_all_balances) ∧
      (∀ b, a.get_balance = .ok b → (p, b) ∈ r.get_all_balances) := by
  constructor
  · simp [TradeRouter.get_all_balances]
  · intro p a hmem
    unfold TradeRouter.get_all_balances
    constructor
    · intro e he
      refine List.mem_map.mpr ⟨(p, a), hmem, ?_⟩
      simp [he]
    · intro b hb
      refine List.mem_map.mpr ⟨(p, a), hmem, ?_⟩
      simp [hb]

/-- An adapter double whose `get_balance` returns balances. -/
def okAdapter : Adapter :=
  { execute_trade := fun _ => walletFailResult,
    get_balance := .ok [("SOL", 2)] }

/-- An adapter double whose `get_balance` raises. -/
def faultingAdapter : Adapter :=
  { execute_trade := fun _ => walletFailResult,
    get_balance := .error "boom" }

/-- A router with one healthy and one faulting adapter registered. -/
def mixedRouter : TradeRouter :=
  { platforms := [(.solana, okAdapter), (.kalshi, faultingAdapter)] }

theorem C7_witness :
    mixedRouter.get_all_balances.length = mixedRouter.platforms.length ∧
    (Platform.kalshi, ([] : Balances)) ∈ mixedRouter.get_all_balances ∧
    (Platform.solana, [("SOL", (2 : ℚ))]) ∈ mixedRouter.get_all_balances := by
  have h := C7_get_all_balances_total mixedRouter
  refine ⟨h.1, ?_, ?_⟩
  · exact (h.2 Platform.kalshi faultingAdapter
      (by simp [mixedRouter])).1 "boom" rfl
  · exact (h.2 Platform.solana okAdapter
      (by simp [mixedRouter])).2 [("SOL", 2)] rfl

/-- Claim C9: every successfully constructed TradeRequest satisfies
`0 ≤ slippage ≤ 1` (the pydantic field constraint rejects out-of-range
values at construction), so the shared `validate_trade` slippage rejection
branch never fires for a constructed TradeRequest. -/
theorem C9_constructed_slippage_in_range (p : Platform) (t : TradeType)
    (s : String) (a : ℚ) (pr : Option ℚ) (sl : ℚ)
    (m : List (String × Json)) (req : TradeRequest)
    (h : mkTradeRequest p t s a pr sl m = .ok req) :
    (0 ≤ req.slippage ∧ req.slippage ≤ 1) ∧
    ∀ bal : Balances,
      (validate_trade (.ok bal) req).2 ≠
        some "Slippage must be between 0 and 1" := by
  unfold mkTradeRequest at h
  split at h
  · exact absurd h (by simp)
  · split at h
    · exact absurd h (by simp)
    · rename_i h0 h1
      have hreq : req.slippage = sl := by
        cases h
        rfl
      have hb : 0 ≤ req.slippage ∧ req.slippage ≤ 1 := by
        rw [hreq]
        exact ⟨not_lt.mp h0, not_lt.mp h1⟩
      refine ⟨hb, ?_⟩
      intro bal
      have hs : ¬ (req.slippage < 0 ∨ 1 < req.slippage) := by
        push_neg
        exact hb
      by_cases ha : req.amount ≤ 0
      · simp [validate_trade, ha]
      · simp [validate_trade, ha, hs]

theorem C9_witness :
    mkTradeRequest .solana .swap "SOL/USDC" 1 none (1 / 100) [] =
      .ok { platform := .solana, trade_type := .swap, symbol := "SOL/USDC",
            amount := 1, price := none, slippage := 1 / 100,
            metadata := [] } ∧
    (0 ≤ ({ platform := .solana, trade_type := .swap, symbol := "SOL/USDC",
            amount := 1, price := none, slippage := 1 / 100,
            metadata := [] } : TradeRequest).slippage ∧
      ({ platform := .solana, trade_type := .swap, symbol := "SOL/USDC",
         amount := 1, price := none, slippage := 1 / 100,
         metadata := [] } : TradeRequest).slippage ≤ 1) ∧
    (validate_trade (.ok [])
      { platform := .solana, trade_type := .swap, symbol := "SOL/USDC",
        amount := 1, price := none, slippage := 1 / 100,
        metadata := [] }).2 ≠ some "Slippage must be between 0 and 1" := by
  have hmk : mkTradeRequest Platform.solana TradeType.swap "SOL/USDC" 1 none
      (1 / 100) [] =
      .ok { platform := .solana, trade_type := .swap, symbol := "SOL/USDC",
            amount := 1, price := none, slippage := 1 / 100,
            metadata := [] } := by
    unfold mkTradeRequest
    norm_num
  have h := C9_constructed_slippage_in_range Platform.solana TradeType.swap
    "SOL/USDC" 1 none (1 / 100) [] _ hmk
  exact ⟨hmk, h.1, h.2 []⟩

/-- Claim C10: in the Solana adapter the wallet-presence check precedes
trade validation: for an adapter without a wallet, `execute_trade` returns
error `"Wallet not initialized"` for every request — including requests
that would also fail validation — so a validation message is never produced
by a wallet-less adapter. -/
theorem C10_wallet_check_precedes_validation (net : SolanaNet)
    (trade : TradeRequest) :
    (solana_execute_trade none net trade).1.error =
      some "Wallet not initialized" ∧
    (solana_execute_trade none net trade).1.error ≠
      some "Amount must be positive" ∧
    (solana_execute_trade none net trade).1.error ≠
      some "Slippage must be between 0 and 1" := by
  rw [solana_execute_trade_no_wallet]
  refine ⟨rfl, ?_, ?_⟩ <;> simp [walletFailResult]

/-- Claim C4: whenever the decoded decision has action `"hold"`, or the
payload is malformed/undecodable, or the output contains no JSON-like
fragment, or the decision carries a `platform` or `trade_type` value
outside the corresponding enumerations, `generate_trade_decision` returns
`none`; the embedded function is total, so nothing is raised to the
caller. -/
theorem C4_hold_or_malformed_yields_none
    (loads : String → Except String Json) (content : String)
    (h : extract_json_fragment content = none ∨
      (∃ s e, extract_json_fragment content = some s ∧ loads s = .error e) ∨
      (∃ s j, extract_json_fragment content = some s ∧ loads s = .ok j ∧
        j.get? "action" = .ok (some (.str "hold"))) ∨
      (∃ s j v e, extract_json_fragment content = some s ∧ loads s = .ok j ∧
        j.getItem "platform" = .ok v ∧ Platform.ofJson v = .error e) ∨
      (∃ s j v e, extract_json_fragment content = some s ∧ loads s = .ok j ∧
        j.getItem "trade_type" = .ok v ∧ TradeType.ofJson v = .error e)) :
    generate_trade_decision loads content = none := by
  rcases h with h1 | ⟨s, e, hs, he⟩ | ⟨s, j, hs, hj, hact⟩ |
    ⟨s, j, v, e, hs, hj, hv, he⟩ | ⟨s, j, v, e, hs, hj, hv, he⟩
  · simp [generate_trade_decision, h1]
  · simp [generate_trade_decision, hs, he]
  · cases j with
    | obj fields =>
      have hl : dictLookup "action" fields = some (.str "hold") := by
        simpa [Json.get?] using hact
      simp [generate_trade_decision, hs, hj, build_trade_request, Json.get?,
        hl, actionIsTrade]
    | null => simp [Json.get?] at hact
    | bool b => simp [Json.get?] at hact
    | num q => simp [Json.get?] at hact
    | str t => simp [Json.get?] at hact
    | arr elems => simp [Json.get?] at hact
  · cases j with
    | obj fields =>
      cases hl : dictLookup "platform" fields with
      | none => simp [Json.getItem, hl] at hv
      | some w =>
        have hwv : w = v := by simpa [Json.getItem, hl] using hv
        subst hwv
        cases hA : actionIsTrade (dictLookup "action" fields) with
        | false =>
          simp [generate_trade_decision, hs, hj, build_trade_request,
            Json.get?, hA]
        | true =>
          simp [generate_trade_decision, hs, hj, build_trade_request,
            Json.get?, hA, Json.getItem, hl, he]
    | null => simp [Json.getItem] at hv
    | bool b => simp [Json.getItem] at hv
    | num q => simp [Json.getItem] at hv
    | str t => simp [Json.getItem] at hv
    | arr elems => simp [Json.getItem] at hv
  · cases j with
    | obj fields =>
      cases hl : dictLookup "trade_type" fields with
      | none => simp [Json.getItem, hl] at hv
      | some w =>
        have hwv : w = v := by simpa [Json.getItem, hl] using hv
        subst hwv
        cases hA : actionIsTrade (dictLookup "action" fields) with
        | false =>
          simp [generate_trade_decision, hs, hj, build_trade_request,
            Json.get?, hA]
        | true =>
          cases hp : dictLookup "platform" fields with
          | none =>
            simp [generate_trade_decision, hs, hj, build_trade_request,
              Json.get?, hA, Json.getItem, hp]
          | some pv =>
            cases hpc : Platform.ofJson pv with
            | error pe =>
              simp [generate_trade_decision, hs, hj, build_trade_request,
                Json.get?, hA, Json.getItem, hp, hpc]
            | ok pOk =>
              simp [generate_trade_decision, hs, hj, build_trade_request,
                Json.get?, hA, Json.getItem, hp, hpc, hl, he]
    | null => simp [Json.getItem] at hv
    | bool b => simp [Json.getItem] at hv
    | num q => simp [Json.getItem] at hv
    | str t => simp [Json.getItem] at hv
    | arr elems => simp [Json.getItem] at hv

theorem C4_witness :
    extract_json_fragment "no trade today" = none ∧
    generate_trade_decision (fun _ => .error "unused") "no trade today" =
      none :=
  ⟨by decide, C4_hold_or_malformed_yields_none (fun _ => .error "unused")
    "no trade today" (Or.inl (by decide))⟩

/-- The decoded decision object of the specification's C8 scenario:
`action "trade"`, `platform "solana"`, `trade_type "swap"`,
`symbol "SOL/USDC"`, `amount 0.1`, and no price, slippage or reasoning
fields. -/
def c8_obj : Json :=
  .obj [("action", .str "trade"), ("platform", .str "solana"),
    ("trade_type", .str "swap"), ("symbol", .str "SOL/USDC"),
    ("amount", .num (1 / 10))]

/-- The TradeRequest the C8 scenario must produce. -/
def c8_expected : TradeRequest :=
  { platform := .solana, trade_type := .swap, symbol := "SOL/USDC",
    amount := 1 / 10, price := none, slippage := 1 / 100,
    metadata := [("reasoning", .str "")] }

/-- Claim C8: model output containing the valid trade object of `c8_obj`
makes `generate_trade_decision` return a TradeRequest with platform
solana, trade_type swap, amount 0.1, slippage defaulted to 0.01, no price,
and empty metadata reasoning. -/
theorem C8_valid_trade_decision (loads : String → Except String Json)
    (content s : String)
    (h1 : extract_json_fragment content = some s)
    (h2 : loads s = .ok c8_obj) :
    generate_trade_decision loads content = some c8_expected ∧
    c8_expected.platform = .solana ∧
    c8_expected.trade_type = .swap ∧
    c8_expected.amount = 1 / 10 ∧
    c8_expected.slippage = 1 / 100 ∧
    c8_expected.price = none ∧
    c8_expected.metadata = [("reasoning", .str "")] := by
  refine ⟨?_, rfl, rfl, rfl, rfl, rfl, rfl⟩
  have hb : build_trade_request c8_obj = .ok (some c8_expected) := by
    simp only [build_trade_request, c8_obj, Json.get?, Json.getItem,
      dictLookup, actionIsTrade, Platform.ofJson, Platform.ofValue,
      TradeType.ofJson, TradeType.ofValue, Json.asStr, Json.asNum, pyOptNum,
      pySlippage, reasoningOf, c8_expected, String.reduceEq, if_false,
      if_true, reduceIte, decide_True, Option.getD]
    norm_num [mkTradeRequest, c8_expected]
  simp [generate_trade_decision, h1, h2, hb]

/-- The raw model output of the C8 scenario (braces written as hex
escapes). -/
def c8_content : String :=
  "\x7b\"action\": \"trade\", \"platform\": \"solana\", " ++
  "\"trade_type\": \"swap\", \"symbol\": \"SOL/USDC\", \"amount\": 0.1\x7d"

theorem C8_witness :
    extract_json_fragment c8_content = some c8_content ∧
    generate_trade_decision (fun _ => .ok c8_obj) c8_content =
      some c8_expected :=
  ⟨by decide, (C8_valid_trade_decision (fun _ => .ok c8_obj) c8_content
    c8_content (by decide) rfl).1⟩

/-- A swap request against an order-driven venue. -/
def c5_swap_req : TradeRequest :=
  { platform := .polymarket, trade_type := .swap, symbol := "us-2024",
    amount := 1 }

/-- A Polymarket response accepting the order. -/
def c5_ok_response : PolyOrderResponse :=
  { success := true, orderId := some "ord-1",
    transactionHash := some "0xabc", executedPrice := some (1 / 2),
    fee := some 0 }

/-- A Polymarket transport double whose venue accepts every order. -/
def c5_ok_transport : PolyTransport :=
  { balancesResp := .ok (true, [("USDC", 100)]),
    ordersResp := fun _ => .ok c5_ok_response }

/-- Claim C5 counterexample: the order-driven venues do not reject
`swap`. On a Polymarket adapter whose venue accepts the order, a valid
TradeRequest with trade_type `swap` executes to a completed TradeResult —
not a failed one — and the order sent to the venue carries side `"SELL"`,
because the adapter maps every trade type other than `buy` to `"SELL"`. -/
theorem C5_counterexample_poly_swap_not_rejected :
    (poly_execute_trade c5_ok_transport c5_swap_req).status = .completed ∧
    (poly_execute_trade c5_ok_transport c5_swap_req).status ≠ .failed ∧
    (poly_order_data c5_swap_req).side = "SELL" := by
  have hstat :
      (poly_execute_trade c5_ok_transport c5_swap_req).status =
        .completed := by
    norm_num [poly_execute_trade, validate_trade, poly_get_balance,
      c5_ok_transport, c5_swap_req, c5_ok_response]
  refine ⟨hstat, ?_, by decide⟩
  rw [hstat]
  intro hcon
  cases hcon

/-- Claim C5 amended: trade-type partiality is enforced only by the
Solana adapter, which honors only `swap` and returns a failed TradeResult
for `buy` or `sell` (when a wallet is present and the request passes
validation). The order-driven venues do not enforce it locally: Polymarket
maps every non-`buy` trade type — including `swap` — to a `"SELL"` order
and completes when the venue accepts, and Kalshi forwards the trade type
verbatim (upper-cased) to the venue and completes when the venue returns
an order. -/
theorem C5_amended_partiality_solana_only (trade : TradeRequest)
    (hamt : 0 < trade.amount) (hs0 : 0 ≤ trade.slippage)
    (hs1 : trade.slippage ≤ 1) :
    (∀ w net, (trade.trade_type = .buy ∨ trade.trade_type = .sell) →
      (solana_execute_trade (some w) net trade).1.status = .failed ∧
      (solana_execute_trade (some w) net trade).1.error =
        some (tradeTypeNotSupportedMsg trade.trade_type)) ∧
    (trade.trade_type = .swap → (poly_order_data trade).side = "SELL") ∧
    ((kalshi_order_data trade).action = trade.trade_type.value.toUpper) ∧
    (∀ tr resp, tr.ordersResp (poly_order_data trade) = .ok resp →
      resp.success = true →
      (poly_execute_trade tr trade).status = .completed) ∧
    (∀ tr resp order, tr.ordersResp (kalshi_order_data trade) = .ok resp →
      resp.order = some order →
      (kalshi_execute_trade tr trade).status = .completed) := by
  refine ⟨?_, ?_, ?_, ?_, ?_⟩
  · intro w net htype
    have hne : ¬ trade.trade_type = .swap := by
      rcases htype with ht | ht <;> rw [ht] <;> intro hcon <;> cases hcon
    constructor <;>
      simp [solana_execute_trade, validate_trade_passes _ _ hamt hs0 hs1, hne]
  · intro ht
    simp [poly_order_data, ht, TradeType.value]
  · simp only [kalshi_order_data]
    split <;> rfl
  · intro tr resp hresp hsucc
    simp [poly_execute_trade, validate_trade_passes _ _ hamt hs0 hs1,
      hresp, hsucc]
  · intro tr resp order hresp horder
    simp [kalshi_execute_trade, validate_trade_passes _ _ hamt hs0 hs1,
      hresp, horder]

/-- A valid buy request against the Solana adapter. -/
def c5_buy_req : TradeRequest :=
  { platform := .solana, trade_type := .buy, symbol := "SOL/USDC",
    amount := 1 }

/-- A Kalshi order object returned by an accepting venue. -/
def c5_kalshi_order : KalshiOrder :=
  { order_id := some "k1", quantity := some 1, yes_price := some 50,
    fee := some 2 }

/-- A Kalshi transport double whose venue accepts every order. -/
def c5_kalshi_transport : KalshiTransport :=
  { balanceResp := .ok (some 1000),
    ordersResp := fun _ => .ok { order := some c5_kalshi_order } }

theorem C5_amended_witness :
    (solana_execute_trade (some "w") { balanceLamports := .ok 5 }
      c5_buy_req).1.status = .failed ∧
    (poly_order_data c5_swap_req).side = "SELL" ∧
    (kalshi_order_data c5_swap_req).action =
      c5_swap_req.trade_type.value.toUpper ∧
    (poly_execute_trade c5_ok_transport c5_swap_req).status = .completed ∧
    (kalshi_execute_trade c5_kalshi_transport c5_swap_req).status =
      .completed := by
  have hb := C5_amended_partiality_solana_only c5_buy_req
    (by norm_num [c5_buy_req]) (by norm_num [c5_buy_req])
    (by norm_num [c5_buy_req])
  have hs := C5_amended_partiality_solana_only c5_swap_req
    (by norm_num [c5_swap_req]) (by norm_num [c5_swap_req])
    (by norm_num [c5_swap_req])
  refine ⟨(hb.1 "w" { balanceLamports := .ok 5 } (Or.inl rfl)).1,
    hs.2.1 rfl, hs.2.2.1, ?_, ?_⟩
  · exact hs.2.2.2.1 c5_ok_transport c5_ok_response rfl rfl
  · exact hs.2.2.2.2 c5_kalshi_transport { order := some c5_kalshi_order }
      c5_kalshi_order rfl rfl

end Syrup
